import Mathlib

/-!
Verification of the dlpi session layer (oxidecomputer/dlpi-sys).

Shallow embedding of `src/dlpi/src/lib.rs` (the most complete variant of the
wrapper; `src/src/lib.rs` is a near-duplicate whose differences are noted in
doc comments).  The external collaborator `libdlpi` is modelled as an oracle:
each FFI primitive (`dlpi_recv`, `dlpi_open`, `dlpi_fd`, ...) is a parameter
giving the result the native library would return for a given call.  The
embedded functions additionally return the trace of calls they issue to the
oracle, so that claims about "exactly one attempt" and about the arguments
handed to the collaborator are statable.
-/

namespace DlpiSys

/-- Mirror of `enum ResultCode` in `src/dlpi/src/lib.rs` (`repr(i32)`,
first discriminant `Success = 10000`, the rest implicitly consecutive up to
`ErrMax = 10018`). -/
inductive ResultCode
  | Success
  | EInval
  | ELinkNameInval
  | ENoLink
  | EBadLink
  | EInHandle
  | ETimedout
  | EVerNotSup
  | EModeNotSup
  | EUnavailSAP
  | Failure
  | ENotStyle2
  | EBadMsg
  | ERawNotSup
  | ENoteInval
  | ENoteNotSup
  | ENoteIdInval
  | EIpNetInfoNotSup
  | ErrMax
deriving DecidableEq, Repr

/-- The `i32` discriminant of a `ResultCode` (`ResultCode::X as i32` in the
source). -/
def ResultCode.toInt : ResultCode → Int
  | .Success => 10000
  | .EInval => 10001
  | .ELinkNameInval => 10002
  | .ENoLink => 10003
  | .EBadLink => 10004
  | .EInHandle => 10005
  | .ETimedout => 10006
  | .EVerNotSup => 10007
  | .EModeNotSup => 10008
  | .EUnavailSAP => 10009
  | .Failure => 10010
  | .ENotStyle2 => 10011
  | .EBadMsg => 10012
  | .ERawNotSup => 10013
  | .ENoteInval => 10014
  | .ENoteNotSup => 10015
  | .ENoteIdInval => 10016
  | .EIpNetInfoNotSup => 10017
  | .ErrMax => 10018

/-- Mirror of `ResultCode::try_from` as derived by `num_enum::TryFromPrimitive`
for the `repr(i32)` enum: succeeds exactly on the declared discriminants
`10000 ..= 10018`, returning the matching variant. -/
def ResultCode.tryFromPrimitive (x : Int) : Option ResultCode :=
  if x = 10000 then some .Success
  else if x = 10001 then some .EInval
  else if x = 10002 then some .ELinkNameInval
  else if x = 10003 then some .ENoLink
  else if x = 10004 then some .EBadLink
  else if x = 10005 then some .EInHandle
  else if x = 10006 then some .ETimedout
  else if x = 10007 then some .EVerNotSup
  else if x = 10008 then some .EModeNotSup
  else if x = 10009 then some .EUnavailSAP
  else if x = 10010 then some .Failure
  else if x = 10011 then some .ENotStyle2
  else if x = 10012 then some .EBadMsg
  else if x = 10013 then some .ERawNotSup
  else if x = 10014 then some .ENoteInval
  else if x = 10015 then some .ENoteNotSup
  else if x = 10016 then some .ENoteIdInval
  else if x = 10017 then some .EIpNetInfoNotSup
  else if x = 10018 then some .ErrMax
  else none

/-- Mirror of `sys::DL_SYSERR` (`src/dlpi/src/sys.rs`): the sentinel telling
the wrapper that the failure is a generic OS errno, not a provider code. -/
def DL_SYSERR : Int := 4

/-- Mirror of `libc::EINVAL` (value 22 on the supported platforms). -/
def EINVAL : Int := 22

/-- Model of the `std::io::Error` values this crate constructs.  The three
constructors record the three distinct construction sites in the source:
`Error::last_os_error()` (recording the errno the platform reported at call
time), `Error::new(ErrorKind::Other, rc)` for a decoded `ResultCode`, and
`Error::from_raw_os_error(code)` for a raw numeric code. -/
inductive IoError
  | systemError (osCode : Int)
  | providerError (rc : ResultCode)
  | rawOsError (code : Int)
deriving DecidableEq, Repr

/-- Mirror of `to_io_error` in `src/dlpi/src/lib.rs` lines 357-366.  `errno`
is the platform's last-reported OS error, read by `Error::last_os_error()` in
the `DL_SYSERR` branch. -/
def to_io_error (errno : Int) (ret : Int) : IoError :=
  if ret = DL_SYSERR then IoError.systemError errno
  else
    match ResultCode.tryFromPrimitive ret with
    | some rc => IoError.providerError rc
    | none => IoError.rawOsError ret

/-- Mirror of `check_return` in `src/dlpi/src/lib.rs` lines 349-355: success
sentinel short-circuits, every other code is translated by `to_io_error`.
(`src/src/lib.rs` lines 206-216 is identical apart from a debug print.) -/
def check_return (errno : Int) (ret : Int) : Except IoError Unit :=
  if ret = ResultCode.Success.toInt then Except.ok ()
  else Except.error (to_io_error errno ret)

/-- The enumerated decode fails outside the discriminant range. -/
theorem tryFromPrimitive_eq_none (x : Int) (h : ¬(10000 ≤ x ∧ x ≤ 10018)) :
    ResultCode.tryFromPrimitive x = none := by
  unfold ResultCode.tryFromPrimitive
  repeat rw [if_neg (by omega)]

/-- The enumerated decode succeeds on the discriminant range. -/
theorem tryFromPrimitive_isSome (x : Int) (h : 10000 ≤ x ∧ x ≤ 10018) :
    (ResultCode.tryFromPrimitive x).isSome = true := by
  obtain ⟨h1, h2⟩ := h
  interval_cases x <;> decide

/-- The enumerated decode succeeds exactly on the discriminant range
`10000 ..= 10018`. -/
theorem tryFromPrimitive_isSome_iff (x : Int) :
    (ResultCode.tryFromPrimitive x).isSome = true ↔ 10000 ≤ x ∧ x ≤ 10018 := by
  constructor
  · intro h
    by_contra hc
    rw [tryFromPrimitive_eq_none x hc] at h
    simp at h
  · exact tryFromPrimitive_isSome x

/-- Decoding a variant's own discriminant returns that variant. -/
theorem tryFromPrimitive_toInt (rc : ResultCode) :
    ResultCode.tryFromPrimitive rc.toInt = some rc := by
  cases rc <;> rfl

/-- Mirror of `fd` in `src/dlpi/src/lib.rs` lines 336-342, parameterized by
the value the collaborator's `dlpi_fd` primitive returns: `-1` maps to
`Error::from_raw_os_error(libc::EINVAL)`, anything else is returned as the
descriptor. -/
def fd (dlpi_fd_ret : Int) : Except IoError Int :=
  if dlpi_fd_ret = -1 then Except.error (IoError.rawOsError EINVAL)
  else Except.ok dlpi_fd_ret

/-- Mirror of `promisc_on` in `src/dlpi/src/lib.rs` lines 317-323,
parameterized by the value the collaborator's `dlpi_promiscon` returns. -/
def promisc_on (dlpi_promiscon_ret : Int) : Except IoError Unit :=
  if dlpi_promiscon_ret = -1 then Except.error (IoError.rawOsError EINVAL)
  else Except.ok ()

/-- Mirror of `promisc_off` in `src/dlpi/src/lib.rs` lines 327-333,
parameterized by the value the collaborator's `dlpi_promiscoff` returns. -/
def promisc_off (dlpi_promiscoff_ret : Int) : Except IoError Unit :=
  if dlpi_promiscoff_ret = -1 then Except.error (IoError.rawOsError EINVAL)
  else Except.ok ()

/-- C1: the error-translation functions decide in this exact precedence:
`10000` (`Success`) succeeds and constructs no error; otherwise `DL_SYSERR`
(4) yields a system error wrapping the platform's last OS error, never an
enumerated provider error; otherwise a valid discriminant of the provider
enumeration (exactly the range `10000 ..= 10018`) yields that provider
error; otherwise the unrecognized code is carried verbatim as a raw error
(in particular `99999` maps to a raw error holding `99999`). -/
theorem check_return_precedence (errno ret : Int) :
    (ret = 10000 → check_return errno ret = Except.ok ()) ∧
    (ret ≠ 10000 → check_return errno ret = Except.error (to_io_error errno ret)) ∧
    (ret = DL_SYSERR → to_io_error errno ret = IoError.systemError errno) ∧
    (ret ≠ DL_SYSERR → ∀ rc : ResultCode, ret = rc.toInt →
        to_io_error errno ret = IoError.providerError rc) ∧
    (ret ≠ DL_SYSERR → ¬(10000 ≤ ret ∧ ret ≤ 10018) →
        to_io_error errno ret = IoError.rawOsError ret) ∧
    ((ResultCode.tryFromPrimitive ret).isSome = true ↔ 10000 ≤ ret ∧ ret ≤ 10018) ∧
    to_io_error errno 99999 = IoError.rawOsError 99999 := by
  refine ⟨?_, ?_, ?_, ?_, ?_, tryFromPrimitive_isSome_iff ret, rfl⟩
  · intro h
    subst h
    rfl
  · intro h
    unfold check_return
    rw [if_neg]
    simpa [ResultCode.toInt] using h
  · intro h
    subst h
    rfl
  · intro h rc hrc
    subst hrc
    unfold to_io_error
    rw [if_neg h, tryFromPrimitive_toInt]
  · intro h hout
    unfold to_io_error
    rw [if_neg h, tryFromPrimitive_eq_none ret hout]

/-- Witness for `check_return_precedence` at concrete codes: 10000 succeeds,
4 becomes a system error wrapping errno 7, 10006 decodes to the timeout
provider error, 99999 falls through to a raw error. -/
theorem check_return_precedence_witness :
    check_return 7 10000 = Except.ok () ∧
    check_return 7 4 = Except.error (IoError.systemError 7) ∧
    check_return 7 10006 = Except.error (IoError.providerError ResultCode.ETimedout) ∧
    check_return 7 99999 = Except.error (IoError.rawOsError 99999) := by
  refine ⟨(check_return_precedence 7 10000).1 rfl, ?_, ?_, ?_⟩
  · rw [(check_return_precedence 7 4).2.1 (by decide),
      (check_return_precedence 7 4).2.2.1 rfl]
  · rw [(check_return_precedence 7 10006).2.1 (by decide),
      (check_return_precedence 7 10006).2.2.2.1 (by decide) ResultCode.ETimedout rfl]
  · rw [(check_return_precedence 7 99999).2.1 (by decide),
      (check_return_precedence 7 99999).2.2.2.2.2.2]

/-- C7: the descriptor accessor errors exactly when the collaborator's
`dlpi_fd` reports the sentinel `-1`, in which case the error is the
invalid-argument OS error (`EINVAL`); any other collaborator value is
returned unchanged as a success. -/
theorem fd_spec (ret : Int) :
    ((fd ret).isOk = false ↔ ret = -1) ∧
    (ret = -1 → fd ret = Except.error (IoError.rawOsError EINVAL)) ∧
    (ret ≠ -1 → fd ret = Except.ok ret) := by
  unfold fd
  by_cases h : ret = -1
  · subst h
    refine ⟨by simp [Except.isOk, Except.toBool], fun _ => rfl, fun hc => absurd rfl hc⟩
  · rw [if_neg h]
    exact ⟨by simp [Except.isOk, Except.toBool, h], fun hc => absurd hc h, fun _ => rfl⟩

/-- Witness for `fd_spec`: the sentinel maps to the `EINVAL` error and the
concrete descriptor 5 passes through unchanged. -/
theorem fd_spec_witness :
    fd (-1) = Except.error (IoError.rawOsError EINVAL) ∧ fd 5 = Except.ok 5 :=
  ⟨(fd_spec (-1)).2.1 rfl, (fd_spec 5).2.2 (by decide)⟩

/-- C8: `promisc_on` and `promisc_off` map the collaborator's result to
exactly one of two outcomes: `-1` maps to the invalid-argument OS error and
every other result maps to success; no other error value is ever produced. -/
theorem promisc_spec (ret : Int) :
    (ret = -1 → promisc_on ret = Except.error (IoError.rawOsError EINVAL) ∧
        promisc_off ret = Except.error (IoError.rawOsError EINVAL)) ∧
    (ret ≠ -1 → promisc_on ret = Except.ok () ∧ promisc_off ret = Except.ok ()) ∧
    (∀ e, promisc_on ret = Except.error e → e = IoError.rawOsError EINVAL) ∧
    (∀ e, promisc_off ret = Except.error e → e = IoError.rawOsError EINVAL) := by
  unfold promisc_on promisc_off
  by_cases h : ret = -1
  · subst h
    simp
  · rw [if_neg h]
    refine ⟨fun hc => absurd hc h, fun _ => ⟨rfl, rfl⟩, fun e he => ?_, fun e he => ?_⟩ <;>
      cases he

/-- Witness for `promisc_spec`: the sentinel `-1` yields the `EINVAL` error
and the concrete success code 0 yields success, for both operations. -/
theorem promisc_spec_witness :
    promisc_on (-1) = Except.error (IoError.rawOsError EINVAL) ∧
    promisc_off (-1) = Except.error (IoError.rawOsError EINVAL) ∧
    promisc_on 0 = Except.ok () ∧ promisc_off 0 = Except.ok () :=
  ⟨((promisc_spec (-1)).1 rfl).1, ((promisc_spec (-1)).1 rfl).2,
    ((promisc_spec 0).2.1 (by decide)).1, ((promisc_spec 0).2.1 (by decide)).2⟩

/-- Record of one call to the collaborator's `dlpi_recv` primitive: the
values of the two length out-parameters at call time (the wrapper
initializes them to the caller-supplied buffer lengths) and the millisecond
timeout argument. -/
structure RecvCall where
  saddrlen : Nat
  msglen : Nat
  msec : Int
deriving DecidableEq, Repr

/-- Outcome of one `dlpi_recv` call: the returned status code and the final
values the primitive left in the two length out-parameters. -/
structure RecvRet where
  ret : Int
  saddrlen : Nat
  msglen : Nat
deriving DecidableEq, Repr

/-- Mirror of `recv` in `src/dlpi/src/lib.rs` lines 176-202 (identical in
`src/src/lib.rs` lines 67-93).  The collaborator's `dlpi_recv` is an oracle
from the call record to its outcome.  The wrapper initializes `src_read` and
`msg_read` to the buffer lengths, issues one call forwarding `msec`
unchanged, translates the status with `check_return`, and on success returns
the out-parameter values.  The second component is the trace of `dlpi_recv`
calls issued. -/
def recv (errno : Int) (dlpi_recv : RecvCall → RecvRet)
    (srcLen msgLen : Nat) (msec : Int) :
    Except IoError (Nat × Nat) × List RecvCall :=
  let call : RecvCall := ⟨srcLen, msgLen, msec⟩
  let r := dlpi_recv call
  match check_return errno r.ret with
  | Except.ok _ => (Except.ok (r.saddrlen, r.msglen), [call])
  | Except.error e => (Except.error e, [call])

/-- Decidable equality for `Except` results, so that concrete outcomes can
be checked by evaluation. -/
instance exceptDecEq {ε α : Type} [DecidableEq ε] [DecidableEq α] :
    DecidableEq (Except ε α) := fun a b =>
  match a, b with
  | Except.ok x, Except.ok y => decidable_of_iff (x = y) (by simp)
  | Except.error x, Except.error y => decidable_of_iff (x = y) (by simp)
  | Except.ok _, Except.error _ => isFalse (by simp)
  | Except.error _, Except.ok _ => isFalse (by simp)

/-- Outcome of one `Future::poll` of `DlpiRecv`: either `Poll::Ready` with
the translated result, or `Poll::Pending`; the Boolean records whether
`cx.waker().wake_by_ref()` was called before returning `Pending`. -/
inductive PollOut
  | Ready (result : Except IoError (Nat × Nat))
  | Pending (wokeWaker : Bool)
deriving DecidableEq, Repr

/-- Mirror of `impl Future for DlpiRecv`, `poll`, `src/dlpi/src/lib.rs`
lines 244-272 (same logic in `src/src/lib.rs` lines 118-149): initialize the
out-parameters to the buffer lengths, issue exactly one `dlpi_recv` with
`msec = 0`, then branch on the status: `Success` gives `Ready` with the byte
counts, `ETimedout` re-arms the waker and stays `Pending`, anything else
gives `Ready` with the translated error.  The second component is the trace
of `dlpi_recv` calls issued by this poll. -/
def DlpiRecv.poll (errno : Int) (dlpi_recv : RecvCall → RecvRet)
    (srcLen msgLen : Nat) : PollOut × List RecvCall :=
  let call : RecvCall := ⟨srcLen, msgLen, 0⟩
  let r := dlpi_recv call
  if r.ret = ResultCode.Success.toInt then
    (PollOut.Ready (Except.ok (r.saddrlen, r.msglen)), [call])
  else if r.ret = ResultCode.ETimedout.toInt then
    (PollOut.Pending true, [call])
  else
    (PollOut.Ready (Except.error (to_io_error errno r.ret)), [call])

/-- Outcome of the readiness-driven strategy after a wakeup, as the spec
describes it: either the operation completes (`Ready`), or it goes back to
waiting for descriptor readability (`WaitReadable`). -/
inductive AsyncStep
  | Ready (result : Except IoError (Nat × Nat))
  | WaitReadable
deriving DecidableEq, Repr

/-- Mirror of the tail of `recv_async`, `src/dlpi/src/lib.rs` lines 233-238,
after `AsyncFd::new(fd(h)?)` succeeded and the reactor has reported the
descriptor readable: the source body then evaluates `recv(h, src, msg, 0,
info)` and the async function completes with that result — there is no loop
back to waiting. -/
def recv_async_afterWake (errno : Int) (dlpi_recv : RecvCall → RecvRet)
    (srcLen msgLen : Nat) : AsyncStep × List RecvCall :=
  let r := recv errno dlpi_recv srcLen msgLen 0
  (AsyncStep.Ready r.1, r.2)

/-- Mirror of the whole of `recv_async`, `src/dlpi/src/lib.rs` lines
227-239, with the tokio reactor steps (`AsyncFd::new`, `readable().await`)
assumed to complete: first `fd(h)?` (parameterized by the collaborator's
`dlpi_fd` value), then, once readable, one non-blocking `recv`. -/
def recv_async (errno : Int) (dlpi_fd_ret : Int)
    (dlpi_recv : RecvCall → RecvRet) (srcLen msgLen : Nat) :
    Except IoError (Nat × Nat) × List RecvCall :=
  match fd dlpi_fd_ret with
  | Except.error e => (Except.error e, [])
  | Except.ok _ => recv errno dlpi_recv srcLen msgLen 0

/-- C9: the synchronous receive issues exactly one `dlpi_recv` call whose
timeout argument is the caller's `msec` forwarded unchanged (the
negative/zero/positive blocking semantics are the collaborator's contract)
and whose out-parameters are initialized to the caller-supplied buffer
lengths; on success it returns exactly the pair of out-parameter values the
collaborator produced, and on any non-success status it returns the
translated error. -/
theorem recv_spec (errno : Int) (dlpi_recv : RecvCall → RecvRet)
    (srcLen msgLen : Nat) (msec : Int) :
    (recv errno dlpi_recv srcLen msgLen msec).2 = [⟨srcLen, msgLen, msec⟩] ∧
    ((dlpi_recv ⟨srcLen, msgLen, msec⟩).ret = ResultCode.Success.toInt →
      (recv errno dlpi_recv srcLen msgLen msec).1 =
        Except.ok ((dlpi_recv ⟨srcLen, msgLen, msec⟩).saddrlen,
          (dlpi_recv ⟨srcLen, msgLen, msec⟩).msglen)) ∧
    ((dlpi_recv ⟨srcLen, msgLen, msec⟩).ret ≠ ResultCode.Success.toInt →
      (recv errno dlpi_recv srcLen msgLen msec).1 =
        Except.error (to_io_error errno (dlpi_recv ⟨srcLen, msgLen, msec⟩).ret)) := by
  unfold recv check_return
  by_cases h : (dlpi_recv ⟨srcLen, msgLen, msec⟩).ret = ResultCode.Success.toInt <;>
    simp [h]

/-- Witness for `recv_spec`: a concrete collaborator that succeeds writing
6 address bytes and 42 message bytes; the wrapper forwards `msec = -1` and
reports those counts. -/
theorem recv_spec_witness :
    (recv 7 (fun _ => ⟨10000, 6, 42⟩) 64 256 (-1)).2 = [⟨64, 256, -1⟩] ∧
    (recv 7 (fun _ => ⟨10000, 6, 42⟩) 64 256 (-1)).1 = Except.ok (6, 42) :=
  ⟨(recv_spec 7 (fun _ => ⟨10000, 6, 42⟩) 64 256 (-1)).1,
    (recv_spec 7 (fun _ => ⟨10000, 6, 42⟩) 64 256 (-1)).2.1 (by decide)⟩

/-- C2: every poll of the self-polling future issues exactly one receive
attempt, with timeout 0; the poll outcome is decided by that attempt's
status code: `Success` yields `Ready` with the pair of byte counts read,
`ETimedout` re-arms the waker (`wokeWaker = true`) and yields `Pending`, and
any other code yields `Ready` with the translated error.  Consequently, for
any sequence of attempts that all report `ETimedout` (a never-signaled
session), every poll in the sequence remains `Pending`: the future never
resolves with a spurious success or error. -/
theorem dlpiRecv_poll_spec (errno : Int) (dlpi_recv : RecvCall → RecvRet)
    (srcLen msgLen : Nat) :
    (DlpiRecv.poll errno dlpi_recv srcLen msgLen).2 = [⟨srcLen, msgLen, 0⟩] ∧
    ((dlpi_recv ⟨srcLen, msgLen, 0⟩).ret = ResultCode.Success.toInt →
      (DlpiRecv.poll errno dlpi_recv srcLen msgLen).1 =
        PollOut.Ready (Except.ok ((dlpi_recv ⟨srcLen, msgLen, 0⟩).saddrlen,
          (dlpi_recv ⟨srcLen, msgLen, 0⟩).msglen))) ∧
    ((dlpi_recv ⟨srcLen, msgLen, 0⟩).ret = ResultCode.ETimedout.toInt →
      (DlpiRecv.poll errno dlpi_recv srcLen msgLen).1 = PollOut.Pending true) ∧
    ((dlpi_recv ⟨srcLen, msgLen, 0⟩).ret ≠ ResultCode.Success.toInt →
      (dlpi_recv ⟨srcLen, msgLen, 0⟩).ret ≠ ResultCode.ETimedout.toInt →
      (DlpiRecv.poll errno dlpi_recv srcLen msgLen).1 =
        PollOut.Ready (Except.error
          (to_io_error errno (dlpi_recv ⟨srcLen, msgLen, 0⟩).ret))) ∧
    (∀ attempts : Nat → RecvCall → RecvRet,
      (∀ n, (attempts n ⟨srcLen, msgLen, 0⟩).ret = ResultCode.ETimedout.toInt) →
      ∀ n, (DlpiRecv.poll errno (attempts n) srcLen msgLen).1 =
        PollOut.Pending true) := by
  refine ⟨?_, ?_, ?_, ?_, ?_⟩
  · simp only [DlpiRecv.poll]
    split
    · rfl
    · split <;> rfl
  · intro h
    unfold DlpiRecv.poll
    rw [if_pos h]
  · intro h
    unfold DlpiRecv.poll
    rw [if_neg (by rw [h]; decide), if_pos h]
  · intro h1 h2
    unfold DlpiRecv.poll
    rw [if_neg h1, if_neg h2]
  · intro attempts hall n
    unfold DlpiRecv.poll
    rw [if_neg (by rw [hall n]; decide), if_pos (hall n)]

/-- Witness for `dlpiRecv_poll_spec`: concrete polls against a collaborator
that succeeds with counts (6, 42), one that never has data (`ETimedout`,
code 10006, at every attempt index), and one that fails with `EInval`. -/
theorem dlpiRecv_poll_spec_witness :
    (DlpiRecv.poll 7 (fun _ => ⟨10000, 6, 42⟩) 64 256).1 =
      PollOut.Ready (Except.ok (6, 42)) ∧
    (DlpiRecv.poll 7 (fun _ => ⟨10006, 0, 0⟩) 64 256).1 = PollOut.Pending true ∧
    (DlpiRecv.poll 7 (fun _ => ⟨10001, 0, 0⟩) 64 256).1 =
      PollOut.Ready (Except.error (IoError.providerError ResultCode.EInval)) := by
  refine ⟨(dlpiRecv_poll_spec 7 (fun _ => ⟨10000, 6, 42⟩) 64 256).2.1 (by decide),
    ?_, ?_⟩
  · exact (dlpiRecv_poll_spec 7 (fun _ => ⟨10006, 0, 0⟩) 64 256).2.2.2.2
      (fun _ _ => ⟨10006, 0, 0⟩) (fun _ => rfl) 3
  · rw [(dlpiRecv_poll_spec 7 (fun _ => ⟨10001, 0, 0⟩) 64 256).2.2.2.1
      (by decide) (by decide)]
    rfl

/-- Evaluation lemma for `recv`: one call, status-directed result. -/
theorem recv_core (errno : Int) (dlpi_recv : RecvCall → RecvRet)
    (srcLen msgLen : Nat) (msec : Int) :
    recv errno dlpi_recv srcLen msgLen msec =
      (if (dlpi_recv ⟨srcLen, msgLen, msec⟩).ret = ResultCode.Success.toInt then
        Except.ok ((dlpi_recv ⟨srcLen, msgLen, msec⟩).saddrlen,
          (dlpi_recv ⟨srcLen, msgLen, msec⟩).msglen)
      else
        Except.error (to_io_error errno (dlpi_recv ⟨srcLen, msgLen, msec⟩).ret),
      [⟨srcLen, msgLen, msec⟩]) := by
  unfold recv check_return
  by_cases h : (dlpi_recv ⟨srcLen, msgLen, msec⟩).ret = ResultCode.Success.toInt <;>
    simp [h]

/-- Evaluation lemma for `DlpiRecv.poll`: one call, status-directed result. -/
theorem poll_core (errno : Int) (dlpi_recv : RecvCall → RecvRet)
    (srcLen msgLen : Nat) :
    DlpiRecv.poll errno dlpi_recv srcLen msgLen =
      (if (dlpi_recv ⟨srcLen, msgLen, 0⟩).ret = ResultCode.Success.toInt then
        PollOut.Ready (Except.ok ((dlpi_recv ⟨srcLen, msgLen, 0⟩).saddrlen,
          (dlpi_recv ⟨srcLen, msgLen, 0⟩).msglen))
      else if (dlpi_recv ⟨srcLen, msgLen, 0⟩).ret = ResultCode.ETimedout.toInt then
        PollOut.Pending true
      else
        PollOut.Ready (Except.error
          (to_io_error errno (dlpi_recv ⟨srcLen, msgLen, 0⟩).ret)),
      [⟨srcLen, msgLen, 0⟩]) := by
  simp only [DlpiRecv.poll]
  split_ifs <;> rfl

/-- C3, counterexample: against a collaborator whose single non-blocking
attempt after the readability wakeup reports `ETimedout` (no data available,
a spurious wakeup), `recv_async` does NOT return to waiting for readability:
it completes with the translated `ETimedout` provider error. -/
theorem recv_async_spurious_counterexample :
    (recv_async_afterWake 0 (fun _ => ⟨10006, 0, 0⟩) 64 256).1 ≠
      AsyncStep.WaitReadable ∧
    (recv_async_afterWake 0 (fun _ => ⟨10006, 0, 0⟩) 64 256).1 =
      AsyncStep.Ready (Except.error (IoError.providerError ResultCode.ETimedout)) := by
  decide

/-- C3, amended: after the reactor reports the descriptor readable, exactly
one non-blocking receive attempt is issued; if it succeeds the operation
completes with the byte counts, and if it reports no-data-available (the
`ETimedout` code from the zero-timeout attempt) the operation completes with
the `ETimedout` provider error returned to the caller — it does not return
to waiting for readability. -/
theorem recv_async_readiness (errno : Int) (dlpi_recv : RecvCall → RecvRet)
    (srcLen msgLen : Nat) :
    (recv_async_afterWake errno dlpi_recv srcLen msgLen).2 =
      [⟨srcLen, msgLen, 0⟩] ∧
    ((dlpi_recv ⟨srcLen, msgLen, 0⟩).ret = ResultCode.Success.toInt →
      (recv_async_afterWake errno dlpi_recv srcLen msgLen).1 =
        AsyncStep.Ready (Except.ok ((dlpi_recv ⟨srcLen, msgLen, 0⟩).saddrlen,
          (dlpi_recv ⟨srcLen, msgLen, 0⟩).msglen))) ∧
    ((dlpi_recv ⟨srcLen, msgLen, 0⟩).ret = ResultCode.ETimedout.toInt →
      (recv_async_afterWake errno dlpi_recv srcLen msgLen).1 =
        AsyncStep.Ready (Except.error
          (IoError.providerError ResultCode.ETimedout))) := by
  have hc := recv_core errno dlpi_recv srcLen msgLen 0
  refine ⟨?_, ?_, ?_⟩
  · show (recv errno dlpi_recv srcLen msgLen 0).2 = _
    rw [hc]
  · intro h
    show AsyncStep.Ready (recv errno dlpi_recv srcLen msgLen 0).1 = _
    rw [hc]
    simp [h]
  · intro h
    show AsyncStep.Ready (recv errno dlpi_recv srcLen msgLen 0).1 = _
    rw [hc]
    simp only [h]
    rfl

/-- Witness for `recv_async_readiness`: a successful attempt completes with
counts (6, 42); a spurious wakeup completes with the timeout provider
error. -/
theorem recv_async_readiness_witness :
    (recv_async_afterWake 7 (fun _ => ⟨10000, 6, 42⟩) 64 256).1 =
      AsyncStep.Ready (Except.ok (6, 42)) ∧
    (recv_async_afterWake 7 (fun _ => ⟨10006, 0, 0⟩) 64 256).1 =
      AsyncStep.Ready (Except.error (IoError.providerError ResultCode.ETimedout)) :=
  ⟨(recv_async_readiness 7 (fun _ => ⟨10000, 6, 42⟩) 64 256).2.1 rfl,
    (recv_async_readiness 7 (fun _ => ⟨10006, 0, 0⟩) 64 256).2.2 rfl⟩

/-- C4: every receive attempt issued by either asynchronous strategy (the
self-polling future's poll, the readiness-driven `recv_async`) carries
timeout argument 0 — never a positive timeout — the self-polling poll issues
exactly one attempt and `recv_async` at most one (none when the `fd` step
fails), and the byte counts a strategy returns on success are exactly the
out-parameter values produced by that single underlying attempt. -/
theorem async_nonblocking_faithful (errno fdRet : Int)
    (dlpi_recv : RecvCall → RecvRet) (srcLen msgLen : Nat) :
    ((DlpiRecv.poll errno dlpi_recv srcLen msgLen).2.length = 1 ∧
      ∀ c ∈ (DlpiRecv.poll errno dlpi_recv srcLen msgLen).2, c.msec = 0) ∧
    ((recv_async errno fdRet dlpi_recv srcLen msgLen).2.length ≤ 1 ∧
      ∀ c ∈ (recv_async errno fdRet dlpi_recv srcLen msgLen).2, c.msec = 0) ∧
    (∀ a b, (DlpiRecv.poll errno dlpi_recv srcLen msgLen).1 =
        PollOut.Ready (Except.ok (a, b)) →
      a = (dlpi_recv ⟨srcLen, msgLen, 0⟩).saddrlen ∧
      b = (dlpi_recv ⟨srcLen, msgLen, 0⟩).msglen) ∧
    (∀ a b, (recv_async errno fdRet dlpi_recv srcLen msgLen).1 =
        Except.ok (a, b) →
      a = (dlpi_recv ⟨srcLen, msgLen, 0⟩).saddrlen ∧
      b = (dlpi_recv ⟨srcLen, msgLen, 0⟩).msglen) := by
  have hp := poll_core errno dlpi_recv srcLen msgLen
  have hr := recv_core errno dlpi_recv srcLen msgLen 0
  refine ⟨⟨?_, ?_⟩, ⟨?_, ?_⟩, ?_, ?_⟩
  · rw [hp]
    rfl
  · rw [hp]
    intro c hcm
    simp at hcm
    rw [hcm]
  · unfold recv_async
    cases fd fdRet with
    | error e => simp
    | ok v => rw [hr]; simp
  · unfold recv_async
    cases fd fdRet with
    | error e => simp
    | ok v =>
      rw [hr]
      intro c hcm
      simp at hcm
      rw [hcm]
  · intro a b hab
    rw [hp] at hab
    by_cases h1 : (dlpi_recv ⟨srcLen, msgLen, 0⟩).ret = ResultCode.Success.toInt
    · rw [if_pos h1] at hab
      simp at hab
      exact ⟨hab.1.symm, hab.2.symm⟩
    · rw [if_neg h1] at hab
      by_cases h2 : (dlpi_recv ⟨srcLen, msgLen, 0⟩).ret = ResultCode.ETimedout.toInt <;>
        simp [h2] at hab
  · intro a b hab
    unfold recv_async at hab
    cases hfd : fd fdRet with
    | error e => rw [hfd] at hab; cases hab
    | ok v =>
      rw [hfd, hr] at hab
      by_cases h1 : (dlpi_recv ⟨srcLen, msgLen, 0⟩).ret = ResultCode.Success.toInt
      · rw [if_pos h1] at hab
        simp at hab
        exact ⟨hab.1.symm, hab.2.symm⟩
      · rw [if_neg h1] at hab
        cases hab

/-- Witness for `async_nonblocking_faithful`: at a concrete successful
collaborator the poll-trace is the single zero-timeout call and both
strategies report the out-parameter counts (6, 42). -/
theorem async_nonblocking_faithful_witness :
    (DlpiRecv.poll 7 (fun _ => ⟨10000, 6, 42⟩) 64 256).2.length = 1 ∧
    (6 = ((fun (_ : RecvCall) => (⟨10000, 6, 42⟩ : RecvRet)) ⟨64, 256, 0⟩).saddrlen ∧
      42 = ((fun (_ : RecvCall) => (⟨10000, 6, 42⟩ : RecvRet)) ⟨64, 256, 0⟩).msglen) ∧
    (6 = ((fun (_ : RecvCall) => (⟨10000, 6, 42⟩ : RecvRet)) ⟨64, 256, 0⟩).saddrlen ∧
      42 = ((fun (_ : RecvCall) => (⟨10000, 6, 42⟩ : RecvRet)) ⟨64, 256, 0⟩).msglen) := by
  have h := async_nonblocking_faithful 7 3 (fun _ => ⟨10000, 6, 42⟩) 64 256
  exact ⟨h.1.1, h.2.2.1 6 42 (by decide), h.2.2.2 6 42 (by decide)⟩

/-- Outcome of one `dlpi_open` call in the model: the returned status code
and the handle value written through the out-parameter on success. -/
structure OpenRet where
  ret : Int
  handle : Nat
deriving DecidableEq, Repr

/-- Mirror of `open` in `src/dlpi/src/lib.rs` lines 127-140 (identical in
`src/src/lib.rs` lines 18-31).  The caller's link name is its byte sequence
(the UTF-8 bytes of the `&str`); the wrapper re-formats it with a NUL
escape appended — the caller's bytes with one NUL byte (0) added at the
end — performs no validation of the name, hands a pointer to that buffer to
the collaborator's `dlpi_open`, and translates the status.  The second
component is the trace of byte buffers passed to `dlpi_open`. -/
def openLink (errno : Int) (dlpi_open : List Nat → OpenRet)
    (linkname : List Nat) : Except IoError Nat × List (List Nat) :=
  let buf := linkname ++ [0]
  let r := dlpi_open buf
  match check_return errno r.ret with
  | Except.ok _ => (Except.ok r.handle, [buf])
  | Except.error e => (Except.error e, [buf])

/-- C semantics of the collaborator reading the `*const c_char` handed to
`dlpi_open`: it dereferences the pointer and reads bytes up to (not
including) the first NUL byte. -/
def cstrRead (buf : List Nat) : List Nat := buf.takeWhile (fun b => b != 0)

/-- Appending the terminator does not change the NUL-terminated text read
from the buffer. -/
theorem cstrRead_append_nul (l : List Nat) :
    cstrRead (l ++ [0]) = l.takeWhile (fun b => b != 0) := by
  unfold cstrRead
  induction l with
  | nil => rfl
  | cons a t ih =>
    by_cases h : a = 0
    · subst h
      rfl
    · simp only [List.cons_append, List.takeWhile_cons]
      have hb : (a != 0) = true := by simpa using h
      rw [hb]
      simp only [if_true]
      rw [ih]

/-- A list containing 0 is strictly shortened by taking up to the first 0. -/
theorem takeWhile_ne_self_of_mem (l : List Nat) (h : 0 ∈ l) :
    l.takeWhile (fun b => b != 0) ≠ l := by
  intro hc
  have hall := List.takeWhile_eq_self_iff.mp hc
  have := hall 0 h
  simp at this

/-- The trace of `openLink` is always the single buffer consisting of the
caller's bytes with the implementation-appended NUL terminator. -/
theorem openLink_trace (errno : Int) (dlpi_open : List Nat → OpenRet)
    (linkname : List Nat) :
    (openLink errno dlpi_open linkname).2 = [linkname ++ [0]] := by
  simp only [openLink]
  split <;> rfl

/-- C6: for every link name, the text handed to the collaborator's
`dlpi_open` is the caller's name with a NUL terminator appended by the
implementation itself — the buffer passed is `name ++ [0]` for every name,
including names that already end in a NUL byte, so the implementation never
relies on the caller having supplied the terminator. -/
theorem open_appends_nul (errno : Int) (dlpi_open : List Nat → OpenRet)
    (linkname : List Nat) :
    (openLink errno dlpi_open linkname).2 = [linkname ++ [0]] ∧
    (openLink errno (fun _ => ⟨10000, 1⟩) (linkname ++ [0])).2 =
      [linkname ++ [0] ++ [0]] :=
  ⟨openLink_trace errno dlpi_open linkname,
    openLink_trace errno (fun _ => ⟨10000, 1⟩) (linkname ++ [0])⟩

/-- C10: `openLink` performs no validation — for every name, with or
without interior NUL bytes, it issues exactly one `dlpi_open` call — and the
NUL-terminated text the collaborator reads from the passed buffer is the
caller's byte sequence truncated at its first NUL byte; when the name
contains a NUL byte, the name the collaborator sees therefore differs from
the name the caller supplied. -/
theorem open_interior_nul (errno : Int) (dlpi_open : List Nat → OpenRet)
    (linkname : List Nat) :
    (openLink errno dlpi_open linkname).2.length = 1 ∧
    (∀ buf ∈ (openLink errno dlpi_open linkname).2,
      cstrRead buf = linkname.takeWhile (fun b => b != 0)) ∧
    (0 ∈ linkname →
      ∀ buf ∈ (openLink errno dlpi_open linkname).2, cstrRead buf ≠ linkname) := by
  have ht := openLink_trace errno dlpi_open linkname
  refine ⟨by rw [ht]; rfl, ?_, ?_⟩
  · intro buf hb
    rw [ht] at hb
    simp at hb
    rw [hb, cstrRead_append_nul]
  · intro h0 buf hb
    rw [ht] at hb
    simp at hb
    rw [hb, cstrRead_append_nul]
    exact takeWhile_ne_self_of_mem linkname h0

/-- Witness for `open_interior_nul` at the concrete name 'a', NUL, 'b'
(bytes 97, 0, 98): one call is issued, the collaborator reads back only
the bytes before the interior NUL (just 'a'), which differs from the name
the caller supplied. -/
theorem open_interior_nul_witness :
    (openLink 7 (fun _ => ⟨10000, 1⟩) [97, 0, 98]).2.length = 1 ∧
    cstrRead ([97, 0, 98] ++ [0]) = [97] ∧
    cstrRead ([97, 0, 98] ++ [0]) ≠ [97, 0, 98] := by
  have h := open_interior_nul 7 (fun _ => ⟨10000, 1⟩) [97, 0, 98]
  refine ⟨h.1, ?_, ?_⟩
  · have hc := h.2.1 ([97, 0, 98] ++ [0]) (by decide)
    rw [hc]
    decide
  · exact h.2.2 (by decide) ([97, 0, 98] ++ [0]) (by decide)

end DlpiSys
